import Mathlib

/-!
Shallow embedding of `src/Resources/Values/Extractor.py` (Emik03/Remote).

The script reads two required environment variables (`APWORLD_PATH`,
`ARCHIPELAGO_REPO_PATH`) and one optional one (`DEBUG_INDENT`), opens the
apworld zip, extracts it into a `TemporaryDirectory`, takes the first
top-level entry as the package name, builds a module spec for
`<root>/Data.py` keyed by `manual_data_<name>`, registers the module in
`sys.modules`, appends the repo path to `sys.path`, executes the module
with `sys.path` restored in a `finally`, and finally `json.dump`s a
seven-key object to stdout.

Tables and module attribute values are modelled as JSON values; the result
of executing the plugin's `Data.py` (arbitrary Python) is an input of the
run.  Machinery that Python supplies (`json.dump` with its `indent`
parameter, `str.isdigit`, truthiness of `os.environ.get` results) is
embedded faithfully below.
-/

/-- JSON-representable values, the shape of the plugin's table attributes. -/
inductive JValue where
  | null
  | bool (b : Bool)
  | num (n : Int)
  | str (s : String)
  | arr (xs : List JValue)
  | obj (kvs : List (String × JValue))

/-- Minimal JSON string escaping as `json.dumps` performs on plain ASCII
text: backslash and double quote are escaped; other characters pass
through unchanged (sufficient for the values modelled here). -/
def escapeChar (c : Char) : String :=
  if c = '\\' then "\\\\"
  else if c = '\"' then "\\\""
  else String.mk [c]

/-- A JSON string literal with surrounding quotes. -/
def jstring (s : String) : String :=
  "\"" ++ String.join (s.data.map escapeChar) ++ "\""

/-- `ind * lvl` : the indentation prefix at nesting level `lvl`. -/
def padding (ind : String) (lvl : Nat) : String :=
  String.join (List.replicate lvl ind)

mutual

/-- `json.dumps` of a value at nesting level `lvl`.  `ind = none` is
Python's `indent=None`: one line, item separator `", "`.  `ind = some s`
is `indent=s` (an `int` indent `n` is normalised to `n` spaces by the
caller): each container item on its own line prefixed by `s * level`,
item separator `","`, key separator `": "` in both modes. -/
def dumpVal (ind : Option String) (lvl : Nat) : JValue → String
  | .null => "null"
  | .bool b => if b then "true" else "false"
  | .num n => toString n
  | .str s => jstring s
  | .arr xs =>
    match ind with
    | none => "[" ++ String.intercalate ", " (dumpList none (lvl + 1) xs) ++ "]"
    | some s =>
      if xs.isEmpty then "[]"
      else
        "[\n" ++ padding s (lvl + 1) ++
          String.intercalate (",\n" ++ padding s (lvl + 1))
            (dumpList (some s) (lvl + 1) xs) ++
          "\n" ++ padding s lvl ++ "]"
  | .obj kvs =>
    match ind with
    | none => "\x7b" ++ String.intercalate ", " (dumpPairs none (lvl + 1) kvs) ++ "\x7d"
    | some s =>
      if kvs.isEmpty then "\x7b\x7d"
      else
        "\x7b\n" ++ padding s (lvl + 1) ++
          String.intercalate (",\n" ++ padding s (lvl + 1))
            (dumpPairs (some s) (lvl + 1) kvs) ++
          "\n" ++ padding s lvl ++ "\x7d"

/-- Serialised forms of the elements of a JSON array. -/
def dumpList (ind : Option String) (lvl : Nat) : List JValue → List String
  | [] => []
  | x :: xs => dumpVal ind lvl x :: dumpList ind lvl xs

/-- Serialised `"key": value` forms of the members of a JSON object. -/
def dumpPairs (ind : Option String) (lvl : Nat) : List (String × JValue) → List String
  | [] => []
  | (k, v) :: xs => (jstring k ++ ": " ++ dumpVal ind lvl v) :: dumpPairs ind lvl xs

end

/-- The executed plugin data module, as the fixed attribute contract the
extractor reads.  `none` models the attribute being absent (so that a
direct access raises `AttributeError` and `hasattr` answers `False`). -/
structure DataModule where
  game_table : Option JValue
  item_table : Option JValue
  location_table : Option JValue
  region_table : Option JValue
  category_table : Option JValue
  option_table : Option JValue
  meta_table : Option JValue

/-- A freshly created, not yet executed module object
(`importlib.util.module_from_spec`): no table attributes set. -/
def DataModule.empty : DataModule := ⟨none, none, none, none, none, none, none⟩

/-- The failure modes of the script.  The source raises plain Python
exceptions; each constructor records which raise site (or built-in
exception) it embeds. -/
inductive PyError where
  /-- `raise Exception("Missing ... environment variable")`, lines 14/18. -/
  | missingEnv (name : String)
  /-- `ZipFile(apworld_path, mode="r")` failing (missing or corrupt archive). -/
  | badZip
  /-- `os.listdir(temp_world_folder)[0]` on an empty listing, line 30. -/
  | indexError
  /-- `raise Exception("Failed to create module spec for ...")`, line 46. -/
  | specError (name : String)
  /-- an exception escaping `module_spec.loader.exec_module`, line 54. -/
  | moduleExecError
  /-- `AttributeError` from `data_module.<table>` on a missing required
  table while the `json.dump` argument dict is evaluated, lines 60-63. -/
  | attributeError (attr : String)
deriving DecidableEq, Repr

/-- Python truthiness of an `os.environ.get` result: `None` and the empty
string are falsy. -/
def pyTruthy (o : Option String) : Bool :=
  match o with
  | none => false
  | some s => !s.isEmpty

/-- `str.isdigit` restricted to ASCII text: nonempty and all digits. -/
def pyIsDigit (s : String) : Bool :=
  !s.data.isEmpty && s.data.all (fun c => c.isDigit)

/-- The `indent` argument ultimately handed to `json.dump`: `None`, an
`int`, or a string. -/
inductive PIndent where
  | noIndent
  | int (n : Nat)
  | str (s : String)
deriving DecidableEq, Repr

/-- Lines 21-23 of the source: `debug_indent = os.environ.get("DEBUG_INDENT")`
followed by `if debug_indent and debug_indent.isdigit(): debug_indent =
int(debug_indent)`.  A missing variable stays `None`; a nonempty digit
string becomes an `int`; anything else (including the empty string) is
passed to `json.dump` as the string itself. -/
def indentOf (d : Option String) : PIndent :=
  match d with
  | none => .noIndent
  | some s => if pyIsDigit s then .int (s.toNat?.getD 0) else .str s

/-- Python's normalisation of the `indent` parameter inside `json.dump`:
`None` means compact, an integer `n` means `n` spaces, a string is used
verbatim as the per-level indent. -/
def PIndent.toIndentString : PIndent → Option String
  | .noIndent => none
  | .int n => some (String.mk (List.replicate n ' '))
  | .str s => some s

/-- The dict literal passed to `json.dump` (lines 59-77), evaluated in
source order: the four required attributes are accessed directly (raising
`AttributeError` naming the first missing one), the three optional ones
go through `hasattr` and fall back to `None`. -/
def serializeTables (m : DataModule) : Except PyError JValue :=
  match m.game_table with
  | none => .error (.attributeError "game_table")
  | some g =>
    match m.item_table with
    | none => .error (.attributeError "item_table")
    | some it =>
      match m.location_table with
      | none => .error (.attributeError "location_table")
      | some lo =>
        match m.region_table with
        | none => .error (.attributeError "region_table")
        | some re =>
          .ok (.obj
            [("game.json", g),
             ("items.json", it),
             ("locations.json", lo),
             ("regions.json", re),
             ("categories.json", m.category_table.getD .null),
             ("options.json", m.option_table.getD .null),
             ("meta.json", m.meta_table.getD .null)])

/-- Line 37 of the source: `module_key = f"manual_data_{apworld_name}"`. -/
def moduleKey (apworld_name : String) : String :=
  "manual_data_" ++ apworld_name

/-- The per-invocation inputs of the script: the three environment
variables and the outcomes of its interactions with the outside world
(the archive, the filesystem, the Python import machinery executing the
plugin's arbitrary code). -/
structure RunInput where
  /-- `os.environ.get("APWORLD_PATH")`. -/
  apworld_path : Option String
  /-- `os.environ.get("ARCHIPELAGO_REPO_PATH")`. -/
  archipelago_repo_path : Option String
  /-- `os.environ.get("DEBUG_INDENT")`. -/
  debug_indent : Option String
  /-- whether `ZipFile(apworld_path, mode="r")` succeeds. -/
  zipOk : Bool
  /-- `os.listdir(temp_world_folder)` after `extractall`: the archive's
  top-level entries. -/
  entries : List String
  /-- whether `spec_from_file_location` yields a spec with a loader for
  `<root>/Data.py`. -/
  specOk : Bool
  /-- the result of `exec_module` on the plugin's `Data.py`: the executed
  module's attributes, or an exception from the plugin's own code. -/
  execResult : Except Unit DataModule

/-- The process-wide interpreter state the script mutates: `sys.path` and
`sys.modules` (the latter as an association list, most recent first). -/
structure SysState where
  path : List String
  modules : List (String × DataModule)

/-- Observable outcome of one run of the script. -/
structure RunResult where
  /-- normal completion or the exception that terminated the run. -/
  outcome : Except PyError Unit
  /-- everything written to standard output. -/
  stdout : String
  /-- whether `ZipFile(...)` was reached (the archive was opened). -/
  archiveOpened : Bool
  /-- whether the `TemporaryDirectory` staging directory was created. -/
  tempDirCreated : Bool
  /-- whether the staging directory is still present once the run ends. -/
  tempDirPresent : Bool
  /-- `sys.path` as it stood during `exec_module`, `none` if execution of
  the plugin module was never reached. -/
  execPath : Option (List String)
  /-- final interpreter state. -/
  sys : SysState

/-- The whole script, line by line.  `s0` is the interpreter state at
entry.  The `with TemporaryDirectory()` block guarantees the staging
directory is removed on every exit path out of its body, so every result
constructed past its entry has `tempDirPresent = false`; the `try/finally`
around `exec_module` restores `sys.path` on both exits.  `json.dump`'s
dict argument is evaluated before anything is written, so a missing
required table produces empty stdout. -/
def run (inp : RunInput) (s0 : SysState) : RunResult :=
  if !pyTruthy inp.apworld_path then
    ⟨.error (.missingEnv "APWORLD_PATH"), "", false, false, false, none, s0⟩
  else if !pyTruthy inp.archipelago_repo_path then
    ⟨.error (.missingEnv "ARCHIPELAGO_REPO_PATH"), "", false, false, false, none, s0⟩
  else
    let repo := inp.archipelago_repo_path.getD ""
    if !inp.zipOk then
      ⟨.error .badZip, "", true, false, false, none, s0⟩
    else
      match inp.entries with
      | [] => ⟨.error .indexError, "", true, true, false, none, s0⟩
      | apworld_name :: _ =>
        let key := moduleKey apworld_name
        if !inp.specOk then
          ⟨.error (.specError apworld_name), "", true, true, false, none, s0⟩
        else
          let execPath := s0.path ++ [repo]
          match inp.execResult with
          | .error _ =>
            ⟨.error .moduleExecError, "", true, true, false, some execPath,
              ⟨s0.path, (key, DataModule.empty) :: s0.modules⟩⟩
          | .ok m =>
            match serializeTables m with
            | .error e =>
              ⟨.error e, "", true, true, false, some execPath,
                ⟨s0.path, (key, m) :: s0.modules⟩⟩
            | .ok obj =>
              ⟨.ok (), dumpVal (indentOf inp.debug_indent).toIndentString 0 obj, true, true,
                false, some execPath, ⟨s0.path, (key, m) :: s0.modules⟩⟩

/-- Attribute lookup on the data module by attribute name
(`getattr`/`hasattr` on the fixed table contract). -/
def tableAttr (m : DataModule) (a : String) : Option JValue :=
  if a = "game_table" then m.game_table
  else if a = "item_table" then m.item_table
  else if a = "location_table" then m.location_table
  else if a = "region_table" then m.region_table
  else if a = "category_table" then m.category_table
  else if a = "option_table" then m.option_table
  else if a = "meta_table" then m.meta_table
  else none

/-- The §8 concrete scenario: `sample_game`'s module with the four
required tables and no optional ones. -/
def sampleModule : DataModule :=
  ⟨some (.obj [("name", .str "Sample")]), some (.arr []), some (.arr []), some (.arr []),
   none, none, none⟩

/-- The seven-key output object the sample module serializes to. -/
def sampleObj : JValue :=
  .obj [("game.json", .obj [("name", .str "Sample")]),
        ("items.json", .arr []),
        ("locations.json", .arr []),
        ("regions.json", .arr []),
        ("categories.json", .null),
        ("options.json", .null),
        ("meta.json", .null)]

/-- A well-formed invocation on the sample archive, compact output. -/
def sampleInput : RunInput :=
  ⟨some "/tmp/sample.apworld", some "/tmp/Archipelago", none, true, ["sample_game"], true,
   .ok sampleModule⟩

/-- Same invocation with `DEBUG_INDENT="ab"`, a non-numeric value. -/
def prettyInput : RunInput :=
  ⟨some "/tmp/sample.apworld", some "/tmp/Archipelago", some "ab", true, ["sample_game"], true,
   .ok sampleModule⟩

/-- A second plugin: different package name, different tables. -/
def otherModule : DataModule :=
  ⟨some (.str "Other"), some (.arr [.num 9]), some (.arr []), some (.arr []),
   none, none, none⟩

/-- A well-formed invocation on the second plugin's archive. -/
def otherInput : RunInput :=
  ⟨some "/tmp/other.apworld", some "/tmp/Archipelago", none, true, ["other_game"], true,
   .ok otherModule⟩

/-- An archive whose staging directory ends up with no top-level entry. -/
def emptyEntriesInput : RunInput :=
  ⟨some "/tmp/empty.apworld", some "/tmp/Archipelago", none, true, [], true, .ok sampleModule⟩

/-- An archive whose staging directory ends up with two top-level entries. -/
def twoEntriesInput : RunInput :=
  ⟨some "/tmp/two.apworld", some "/tmp/Archipelago", none, true, ["alpha", "beta"], true,
   .ok sampleModule⟩

/-- An invocation where no module spec can be built for `Data.py`. -/
def noSpecInput : RunInput :=
  ⟨some "/tmp/sample.apworld", some "/tmp/Archipelago", none, true, ["sample_game"], false,
   .ok sampleModule⟩

/-- An invocation with `APWORLD_PATH` unset. -/
def noConfigInput : RunInput :=
  ⟨none, some "/tmp/Archipelago", none, true, ["sample_game"], true, .ok sampleModule⟩

/-- An invocation whose plugin code raises during `exec_module`. -/
def execFailInput : RunInput :=
  ⟨some "/tmp/sample.apworld", some "/tmp/Archipelago", none, true, ["sample_game"], true,
   .error ()⟩

/-- A module that never sets `game_table`. -/
def missingTableModule : DataModule :=
  ⟨none, some (.arr []), some (.arr []), some (.arr []), none, none, none⟩

/-- An otherwise well-formed invocation whose module lacks `game_table`. -/
def missingTableInput : RunInput :=
  ⟨some "/tmp/sample.apworld", some "/tmp/Archipelago", none, true, ["sample_game"], true,
   .ok missingTableModule⟩

/-- An initial interpreter state with a nonempty `sys.path`. -/
def emptySys : SysState := ⟨["/usr/lib/python"], []⟩

/-- Helper: a run that reaches serialization with all four required tables
present completes normally and writes exactly the seven-key object. -/
theorem run_reach_ok (inp : RunInput) (s0 : SysState) (n : String) (rest : List String)
    (m : DataModule) (g it lo re : JValue)
    (hap : pyTruthy inp.apworld_path = true)
    (har : pyTruthy inp.archipelago_repo_path = true)
    (hz : inp.zipOk = true)
    (he : inp.entries = n :: rest)
    (hs : inp.specOk = true)
    (hx : inp.execResult = .ok m)
    (hg : m.game_table = some g) (hi : m.item_table = some it)
    (hl : m.location_table = some lo) (hr : m.region_table = some re) :
    (run inp s0).outcome = .ok () ∧
    (run inp s0).stdout = dumpVal (indentOf inp.debug_indent).toIndentString 0 (.obj
      [("game.json", g),
       ("items.json", it),
       ("locations.json", lo),
       ("regions.json", re),
       ("categories.json", m.category_table.getD .null),
       ("options.json", m.option_table.getD .null),
       ("meta.json", m.meta_table.getD .null)]) := by
  unfold run
  rw [hap, har, hz, he, hs, hx]
  simp [serializeTables, hg, hi, hl, hr]

/-- Helper: a run's exit status and stdout do not depend on the incoming
interpreter state (the script never reads `sys.modules` and only restores
`sys.path`). -/
theorem run_state_indep (inp : RunInput) (s s' : SysState) :
    (run inp s).stdout = (run inp s').stdout ∧ (run inp s).outcome = (run inp s').outcome := by
  unfold run
  rcases pyTruthy inp.apworld_path with _ | _ <;>
    rcases pyTruthy inp.archipelago_repo_path with _ | _ <;>
      rcases hz : inp.zipOk with _ | _ <;>
        rcases he : inp.entries with _ | ⟨n, rest⟩ <;>
          rcases hs : inp.specOk with _ | _ <;>
            rcases hx : inp.execResult with _ | m <;>
              simp_all <;> rcases hser : serializeTables m with _ | obj <;> simp_all

/-- Helper: the `manual_data_` prefixing of `module_key` is injective in the
package name. -/
theorem moduleKey_inj (n1 n2 : String) (h : moduleKey n1 = moduleKey n2) : n1 = n2 := by
  have hd := congrArg String.data h
  simp only [moduleKey, String.data_append] at hd
  exact String.ext (List.append_cancel_left hd)

/-- Helper: any run that reaches module registration leaves an entry under
the namespaced key in `sys.modules`, whether or not execution succeeds. -/
theorem run_registers (inp : RunInput) (s0 : SysState) (n : String) (rest : List String)
    (hap : pyTruthy inp.apworld_path = true)
    (har : pyTruthy inp.archipelago_repo_path = true)
    (hz : inp.zipOk = true)
    (he : inp.entries = n :: rest)
    (hs : inp.specOk = true) :
    ∃ m, ((run inp s0).sys.modules.lookup (moduleKey n)) = some m := by
  unfold run
  rw [hap, har, hz, he, hs]
  rcases hx : inp.execResult with _ | m
  · exact ⟨DataModule.empty, by simp [List.lookup]⟩
  · rcases hser : serializeTables m with e | obj <;>
      exact ⟨m, by simp [hser, List.lookup]⟩

/-- Helper: when any required table is absent, the `json.dump` argument
evaluation fails with an `AttributeError` naming a missing required
attribute (the first one in source order). -/
theorem serializeTables_missing (m : DataModule)
    (h : m.game_table = none ∨ m.item_table = none ∨
         m.location_table = none ∨ m.region_table = none) :
    ∃ a, tableAttr m a = none ∧
      (a = "game_table" ∨ a = "item_table" ∨ a = "location_table" ∨ a = "region_table") ∧
      serializeTables m = .error (.attributeError a) := by
  rcases hg : m.game_table with _ | g
  · exact ⟨"game_table", by simp [tableAttr, hg], by simp, by simp [serializeTables, hg]⟩
  · rcases hi : m.item_table with _ | it
    · exact ⟨"item_table", by simp [tableAttr, hi], by simp, by simp [serializeTables, hg, hi]⟩
    · rcases hl : m.location_table with _ | lo
      · exact ⟨"location_table", by simp [tableAttr, hl], by simp,
          by simp [serializeTables, hg, hi, hl]⟩
      · rcases hr : m.region_table with _ | re
        · exact ⟨"region_table", by simp [tableAttr, hr], by simp,
            by simp [serializeTables, hg, hi, hl, hr]⟩
        · simp_all

/-- C1: for every loaded module defining the four required tables,
serialization produces a single JSON object with exactly the seven fixed
keys in the stable order `game.json`, `items.json`, `locations.json`,
`regions.json`, `categories.json`, `options.json`, `meta.json`; each
required key maps to its table value and each optional key maps to its
table value when present and to `null` when absent. -/
theorem extractor_output_seven_fixed_keys
    (inp : RunInput) (s0 : SysState) (n : String) (rest : List String)
    (m : DataModule) (g it lo re : JValue)
    (hap : pyTruthy inp.apworld_path = true)
    (har : pyTruthy inp.archipelago_repo_path = true)
    (hz : inp.zipOk = true)
    (he : inp.entries = n :: rest)
    (hs : inp.specOk = true)
    (hx : inp.execResult = .ok m)
    (hg : m.game_table = some g) (hi : m.item_table = some it)
    (hl : m.location_table = some lo) (hr : m.region_table = some re) :
    (run inp s0).outcome = .ok () ∧
    (run inp s0).stdout = dumpVal (indentOf inp.debug_indent).toIndentString 0 (.obj
      [("game.json", g),
       ("items.json", it),
       ("locations.json", lo),
       ("regions.json", re),
       ("categories.json", m.category_table.getD .null),
       ("options.json", m.option_table.getD .null),
       ("meta.json", m.meta_table.getD .null)]) :=
  run_reach_ok inp s0 n rest m g it lo re hap har hz he hs hx hg hi hl hr

/-- C1 witness: the §8 sample scenario, evaluated concretely. -/
theorem extractor_output_seven_fixed_keys_witness :
    (run sampleInput emptySys).outcome = .ok () ∧
    (run sampleInput emptySys).stdout = dumpVal none 0 sampleObj :=
  extractor_output_seven_fixed_keys sampleInput emptySys "sample_game" [] sampleModule
    _ _ _ _ rfl rfl rfl rfl rfl rfl rfl rfl rfl rfl

/-- C2: when any of the four required table attributes is absent, the run
fails with an error naming a missing required attribute (the
`MissingTableError` of the spec, an `AttributeError` in the source), and
nothing is written to stdout. -/
theorem missing_required_table_error
    (inp : RunInput) (s0 : SysState) (n : String) (rest : List String) (m : DataModule)
    (hap : pyTruthy inp.apworld_path = true)
    (har : pyTruthy inp.archipelago_repo_path = true)
    (hz : inp.zipOk = true)
    (he : inp.entries = n :: rest)
    (hs : inp.specOk = true)
    (hx : inp.execResult = .ok m)
    (hmiss : m.game_table = none ∨ m.item_table = none ∨
             m.location_table = none ∨ m.region_table = none) :
    ∃ a, tableAttr m a = none ∧
      (a = "game_table" ∨ a = "item_table" ∨ a = "location_table" ∨ a = "region_table") ∧
      (run inp s0).outcome = .error (.attributeError a) ∧
      (run inp s0).stdout = "" := by
  obtain ⟨a, hta, hmem, hser⟩ := serializeTables_missing m hmiss
  refine ⟨a, hta, hmem, ?_, ?_⟩ <;>
    (unfold run; rw [hap, har, hz, he, hs, hx]; simp [hser])

/-- C2 witness: a module lacking `game_table`, evaluated concretely. -/
theorem missing_required_table_error_witness :
    ∃ a, tableAttr missingTableModule a = none ∧
      (a = "game_table" ∨ a = "item_table" ∨ a = "location_table" ∨ a = "region_table") ∧
      (run missingTableInput emptySys).outcome = .error (.attributeError a) ∧
      (run missingTableInput emptySys).stdout = "" :=
  missing_required_table_error missingTableInput emptySys "sample_game" [] missingTableModule
    rfl rfl rfl rfl rfl rfl (Or.inl rfl)

/-- C3: on every run and every exit path, successful or not, the staging
directory (the `TemporaryDirectory` holding the extracted archive) is
deleted before the process completes. -/
theorem staging_directory_always_deleted (inp : RunInput) (s0 : SysState) :
    (run inp s0).tempDirPresent = false := by
  unfold run
  repeat' split <;> try rfl

/-- C4: for two successive extractions of plugins with distinct package
names (both loading a module generically named `Data`), the namespaced
registry keys are distinct, the first run registers under its own key,
and the second run's output is exactly the serialization of the second
archive's own tables — the first run's loaded module does not leak in. -/
theorem namespaced_module_key_no_cross_run_leak
    (inp1 inp2 : RunInput) (s0 : SysState) (n1 n2 : String) (r1 r2 : List String)
    (m2 : DataModule) (g it lo re : JValue)
    (hap1 : pyTruthy inp1.apworld_path = true)
    (har1 : pyTruthy inp1.archipelago_repo_path = true)
    (hz1 : inp1.zipOk = true)
    (he1 : inp1.entries = n1 :: r1)
    (hs1 : inp1.specOk = true)
    (hap2 : pyTruthy inp2.apworld_path = true)
    (har2 : pyTruthy inp2.archipelago_repo_path = true)
    (hz2 : inp2.zipOk = true)
    (he2 : inp2.entries = n2 :: r2)
    (hs2 : inp2.specOk = true)
    (hx2 : inp2.execResult = .ok m2)
    (hg : m2.game_table = some g) (hi : m2.item_table = some it)
    (hl : m2.location_table = some lo) (hr : m2.region_table = some re)
    (hne : n1 ≠ n2) :
    moduleKey n1 ≠ moduleKey n2 ∧
    (∃ m, ((run inp1 s0).sys.modules.lookup (moduleKey n1)) = some m) ∧
    (run inp2 (run inp1 s0).sys).stdout = dumpVal (indentOf inp2.debug_indent).toIndentString 0
      (.obj
        [("game.json", g),
         ("items.json", it),
         ("locations.json", lo),
         ("regions.json", re),
         ("categories.json", m2.category_table.getD .null),
         ("options.json", m2.option_table.getD .null),
         ("meta.json", m2.meta_table.getD .null)]) := by
  refine ⟨fun hk => hne (moduleKey_inj n1 n2 hk), ?_, ?_⟩
  · exact run_registers inp1 s0 n1 r1 hap1 har1 hz1 he1 hs1
  · exact (run_state_indep inp2 (run inp1 s0).sys s0).1.trans
      (run_reach_ok inp2 s0 n2 r2 m2 g it lo re hap2 har2 hz2 he2 hs2 hx2 hg hi hl hr).2

/-- C4 witness: extracting `other_game` and then `sample_game` in one
process: distinct keys, and the second run emits the sample tables. -/
theorem namespaced_module_key_no_cross_run_leak_witness :
    moduleKey "other_game" ≠ moduleKey "sample_game" ∧
    (∃ m, ((run otherInput emptySys).sys.modules.lookup (moduleKey "other_game")) = some m) ∧
    (run sampleInput (run otherInput emptySys).sys).stdout = dumpVal none 0 sampleObj :=
  namespaced_module_key_no_cross_run_leak otherInput sampleInput emptySys
    "other_game" "sample_game" [] [] sampleModule _ _ _ _
    rfl rfl rfl rfl rfl rfl rfl rfl rfl rfl rfl rfl rfl rfl rfl (by decide)

/-- C5 counterexample: with `DEBUG_INDENT="ab"` (present, non-numeric) the
run does not crash, but its output is NOT the compact output produced
when the variable is absent — the string is passed to `json.dump` as a
literal per-level indent (the source's own comment documents passing a
string of spaces), refuting the claim that non-numeric input is treated
as no pretty-printing. -/
theorem nonnumeric_indent_not_compact :
    prettyInput.debug_indent = some "ab" ∧ pyIsDigit "ab" = false ∧
    (run prettyInput emptySys).outcome = .ok () ∧
    (run prettyInput emptySys).stdout ≠ (run sampleInput emptySys).stdout :=
  ⟨rfl, by decide, rfl, by decide⟩

/-- C5 (amended): a missing `DEBUG_INDENT` yields compact output; a
nonempty digit string yields indentation by that many spaces; any other
value (present but non-numeric) does not crash and is used by `json.dump`
as a literal per-level indentation string — newline-separated output
indented with that very string, not compact output. -/
theorem indent_handling
    (inp : RunInput) (s0 : SysState) (n : String) (rest : List String)
    (m : DataModule) (g it lo re : JValue)
    (hap : pyTruthy inp.apworld_path = true)
    (har : pyTruthy inp.archipelago_repo_path = true)
    (hz : inp.zipOk = true)
    (he : inp.entries = n :: rest)
    (hs : inp.specOk = true)
    (hx : inp.execResult = .ok m)
    (hg : m.game_table = some g) (hi : m.item_table = some it)
    (hl : m.location_table = some lo) (hr : m.region_table = some re) :
    (run inp s0).outcome = .ok () ∧
    (inp.debug_indent = none →
      (run inp s0).stdout = dumpVal none 0 (.obj
        [("game.json", g), ("items.json", it), ("locations.json", lo), ("regions.json", re),
         ("categories.json", m.category_table.getD .null),
         ("options.json", m.option_table.getD .null),
         ("meta.json", m.meta_table.getD .null)])) ∧
    (∀ ds, inp.debug_indent = some ds → pyIsDigit ds = true →
      (run inp s0).stdout = dumpVal (some (String.mk (List.replicate (ds.toNat?.getD 0) ' '))) 0
        (.obj
          [("game.json", g), ("items.json", it), ("locations.json", lo), ("regions.json", re),
           ("categories.json", m.category_table.getD .null),
           ("options.json", m.option_table.getD .null),
           ("meta.json", m.meta_table.getD .null)])) ∧
    (∀ ds, inp.debug_indent = some ds → pyIsDigit ds = false →
      (run inp s0).stdout = dumpVal (some ds) 0 (.obj
        [("game.json", g), ("items.json", it), ("locations.json", lo), ("regions.json", re),
         ("categories.json", m.category_table.getD .null),
         ("options.json", m.option_table.getD .null),
         ("meta.json", m.meta_table.getD .null)])) := by
  obtain ⟨hok, hstd⟩ := run_reach_ok inp s0 n rest m g it lo re hap har hz he hs hx hg hi hl hr
  refine ⟨hok, ?_, ?_, ?_⟩
  · intro hd
    rw [hstd, hd]
    rfl
  · intro ds hd hdig
    rw [hstd, hd]
    simp [indentOf, hdig, PIndent.toIndentString]
  · intro ds hd hdig
    rw [hstd, hd]
    simp [indentOf, hdig, PIndent.toIndentString]

/-- C5 witness: the non-numeric value `"ab"` is used as the literal indent
string on the sample scenario. -/
theorem indent_handling_witness :
    (run prettyInput emptySys).outcome = .ok () ∧
    (run prettyInput emptySys).stdout = dumpVal (some "ab") 0 sampleObj :=
  ⟨(indent_handling prettyInput emptySys "sample_game" [] sampleModule _ _ _ _
      rfl rfl rfl rfl rfl rfl rfl rfl rfl rfl).1,
   (indent_handling prettyInput emptySys "sample_game" [] sampleModule _ _ _ _
      rfl rfl rfl rfl rfl rfl rfl rfl rfl rfl).2.2.2 "ab" rfl (by decide)⟩

/-- C6: the source never checks the number of top-level entries in the
staging directory: with zero entries it crashes with an `IndexError` from
`os.listdir(...)[0]` (not a `LayoutError`), and with two entries it
silently proceeds using the first one (here `alpha`), completing
normally. -/
theorem top_level_entry_count_unchecked :
    (run emptyEntriesInput emptySys).outcome = .error .indexError ∧
    (run twoEntriesInput emptySys).outcome = .ok () ∧
    ((run twoEntriesInput emptySys).sys.modules.lookup (moduleKey "alpha")).isSome = true :=
  ⟨rfl, rfl, by decide⟩

/-- C7: on every run, whether module execution succeeds or raises, the
final `sys.path` equals the incoming one, and whenever the plugin module
was executed it ran with exactly the incoming path extended by the
framework repository path. -/
theorem sys_path_restored_and_scoped (inp : RunInput) (s0 : SysState) :
    (run inp s0).sys.path = s0.path ∧
    (∀ p, (run inp s0).execPath = some p →
      p = s0.path ++ [inp.archipelago_repo_path.getD ""]) := by
  unfold run
  repeat' split
  all_goals refine ⟨rfl, fun p hp => ?_⟩
  all_goals simp_all

/-- C7 witness: the sample run restores the path and executed with the
repo path appended. -/
theorem sys_path_restored_and_scoped_witness :
    (run sampleInput emptySys).sys.path = emptySys.path ∧
    emptySys.path ++ ["/tmp/Archipelago"] =
      emptySys.path ++ [sampleInput.archipelago_repo_path.getD ""] :=
  ⟨(sys_path_restored_and_scoped sampleInput emptySys).1,
   (sys_path_restored_and_scoped sampleInput emptySys).2
     (emptySys.path ++ ["/tmp/Archipelago"]) rfl⟩

/-- C8: when no loadable module spec can be constructed for the plugin's
`Data.py`, the run fails with the spec-construction error before any
module code is executed: nothing is written, no module is registered, and
the interpreter state is untouched. -/
theorem spec_failure_before_module_execution
    (inp : RunInput) (s0 : SysState) (n : String) (rest : List String)
    (hap : pyTruthy inp.apworld_path = true)
    (har : pyTruthy inp.archipelago_repo_path = true)
    (hz : inp.zipOk = true)
    (he : inp.entries = n :: rest)
    (hs : inp.specOk = false) :
    (run inp s0).outcome = .error (.specError n) ∧
    (run inp s0).execPath = none ∧
    (run inp s0).sys = s0 ∧
    (run inp s0).stdout = "" := by
  unfold run
  rw [hap, har, hz, he, hs]
  refine ⟨?_, ?_, ?_, ?_⟩ <;> simp

/-- C8 witness: a run with no constructible module spec, evaluated. -/
theorem spec_failure_before_module_execution_witness :
    (run noSpecInput emptySys).outcome = .error (.specError "sample_game") ∧
    (run noSpecInput emptySys).execPath = none ∧
    (run noSpecInput emptySys).sys = emptySys ∧
    (run noSpecInput emptySys).stdout = "" :=
  spec_failure_before_module_execution noSpecInput emptySys "sample_game" []
    rfl rfl rfl rfl rfl

/-- C9: when a required configuration variable is missing (or empty), the
run fails with the corresponding missing-variable error before any
extraction work: the archive is never opened, no staging directory is
created, nothing is written, and the interpreter state is untouched. -/
theorem missing_config_fails_before_side_effects
    (inp : RunInput) (s0 : SysState)
    (h : pyTruthy inp.apworld_path = false ∨ pyTruthy inp.archipelago_repo_path = false) :
    (∃ v, (run inp s0).outcome = .error (.missingEnv v)) ∧
    (run inp s0).archiveOpened = false ∧
    (run inp s0).tempDirCreated = false ∧
    (run inp s0).stdout = "" ∧
    (run inp s0).sys = s0 := by
  unfold run
  rcases hap : pyTruthy inp.apworld_path with _ | _
  · exact ⟨⟨"APWORLD_PATH", by simp⟩, by simp, by simp, by simp, by simp⟩
  · have har : pyTruthy inp.archipelago_repo_path = false := by
      rcases h with h | h
      · rw [hap] at h
        exact absurd h (by simp)
      · exact h
    rw [har]
    exact ⟨⟨"ARCHIPELAGO_REPO_PATH", by simp⟩, by simp, by simp, by simp, by simp⟩

/-- C9 witness: a run with `APWORLD_PATH` unset. -/
theorem missing_config_fails_before_side_effects_witness :
    (∃ v, (run noConfigInput emptySys).outcome = .error (.missingEnv v)) ∧
    (run noConfigInput emptySys).archiveOpened = false ∧
    (run noConfigInput emptySys).tempDirCreated = false ∧
    (run noConfigInput emptySys).stdout = "" ∧
    (run noConfigInput emptySys).sys = emptySys :=
  missing_config_fails_before_side_effects noConfigInput emptySys (Or.inl rfl)

/-- C10: every run that reaches module registration leaves the
`sys.modules` entry under the namespaced key in place on every exit path
(registration is never undone), while `sys.path` is restored. -/
theorem module_registration_retained
    (inp : RunInput) (s0 : SysState) (n : String) (rest : List String)
    (hap : pyTruthy inp.apworld_path = true)
    (har : pyTruthy inp.archipelago_repo_path = true)
    (hz : inp.zipOk = true)
    (he : inp.entries = n :: rest)
    (hs : inp.specOk = true) :
    (∃ m, ((run inp s0).sys.modules.lookup (moduleKey n)) = some m) ∧
    (run inp s0).sys.path = s0.path := by
  refine ⟨run_registers inp s0 n rest hap har hz he hs, ?_⟩
  unfold run
  repeat' split <;> try rfl

/-- C10 witness: a run whose plugin code raises during execution still
retains its registry entry; the path is restored. -/
theorem module_registration_retained_witness :
    (∃ m, ((run execFailInput emptySys).sys.modules.lookup (moduleKey "sample_game")) = some m) ∧
    (run execFailInput emptySys).sys.path = emptySys.path :=
  module_registration_retained execFailInput emptySys "sample_game" [] rfl rfl rfl rfl rfl
